import Mathlib

/-!
Verification of the Spatix spatial normalization and bbox-indexing engine.

This file shallowly embeds the core of the repository:
- the GeoJSON data model and the recursive coordinate extractors
  (`extract_bounds` in `backend/api/normalize.py`, `_extract_coords` and
  `_flat_coords` in `backend/api/datasets.py`),
- GeoJSON normalization (`normalize_geojson`, `parse_coordinates` in
  `backend/api/maps.py`),
- dataset ingestion validation (`validate_geojson` in `backend/api/datasets.py`),
- CSV property coercion (`_normalize_csv_text`, `_csv_geom_to_geojson` in
  `backend/api/normalize.py`),
- geometry validation/repair (`_validate_and_repair_geometries` in
  `backend/api/normalize.py`),
- the bbox spatial queries (`query_intersects`, `query_contains` in
  `backend/api/spatial.py` over `search_datasets` in `backend/database.py`).

Python floats are modelled as rationals (`ℚ`); the non-finite floats NaN and
±Inf, which several claims are about, are modelled as explicit constructors of
the scalar-value types.  Python exceptions (`HTTPException`) are modelled with
`Except`.
-/

namespace Spatix

/-- Scalar values storable in GeoJSON feature properties.  JSON scalars plus
the non-finite floats that Python lets through into property dicts. -/
inductive PVal where
  | null
  | boolean (b : Bool)
  | num (q : ℚ)
  | str (s : String)
  | nan
  | inf
  | ninf
deriving DecidableEq, Repr

/-- A canonical GeoJSON geometry, one constructor per recognized `type` tag.
`unknown t` stands for a geometry dict whose `type` is the string `t`, not one
of the seven recognized names (or missing, modelled as the empty string).
Coordinate pairs are lists of numbers so that too-short pairs — which the
extractors must skip — are representable. -/
inductive Geometry where
  | point (coordinates : List ℚ)
  | lineString (coordinates : List (List ℚ))
  | multiPoint (coordinates : List (List ℚ))
  | polygon (coordinates : List (List (List ℚ)))
  | multiLineString (coordinates : List (List (List ℚ)))
  | multiPolygon (coordinates : List (List (List (List ℚ))))
  | geometryCollection (geometries : List Geometry)
  | unknown (gtype : String)

/-- The `type` string of a geometry dict, as read by `geom.get("type")`. -/
def Geometry.typeName : Geometry → String
  | .point _ => "Point"
  | .lineString _ => "LineString"
  | .multiPoint _ => "MultiPoint"
  | .polygon _ => "Polygon"
  | .multiLineString _ => "MultiLineString"
  | .multiPolygon _ => "MultiPolygon"
  | .geometryCollection _ => "GeometryCollection"
  | .unknown t => t

/-- A GeoJSON feature: an optional geometry (a missing or `null` geometry is
`none`) and a property dict, modelled as an association list. -/
structure Feature where
  geometry : Option Geometry
  properties : List (String × PVal)

/-- A GeoJSON FeatureCollection. -/
structure FeatureCollection where
  features : List Feature

/-- The error type standing for a raised `HTTPException(status_code=400, ...)`.
Dynamic parts of detail messages (f-string interpolations) are not modelled. -/
inductive HTTPErr where
  | badRequest (detail : String)
deriving DecidableEq, Repr

/-! ### Geometry extractors

`extract_bounds` in `normalize.py` first collects the raw per-geometry
coordinate entries (its inner `_extract` appends `geom_coords` for a `Point`
and extends with coordinate lists for the other types), and only afterwards
filters out entries shorter than 2 when building `lngs`/`lats`.
-/

mutual

/-- The raw coordinate entries collected by the inner `_extract` of
`extract_bounds` (`normalize.py` lines 104-122): `Point` appends its own
coordinate list, `LineString`/`MultiPoint` extend with the coordinate list,
`Polygon`/`MultiLineString` with every ring, `MultiPolygon` with every ring of
every polygon, `GeometryCollection` recurses into each member; an unknown type
contributes nothing. -/
def extractRaw : Geometry → List (List ℚ)
  | .point c => [c]
  | .lineString cs => cs
  | .multiPoint cs => cs
  | .polygon rs => rs.flatten
  | .multiLineString rs => rs.flatten
  | .multiPolygon ps => (ps.map List.flatten).flatten
  | .geometryCollection gs => extractRawList gs
  | .unknown _ => []

/-- The inner `_extract` applied to each member of a `GeometryCollection`, in order. -/
def extractRawList : List Geometry → List (List ℚ)
  | [] => []
  | g :: gs => extractRaw g ++ extractRawList gs

end

/-- The (lng, lat) pair of one raw coordinate entry, skipping entries shorter
than 2 — the `len(c) >= 2` guard shared by all the extractors. -/
def pairOf : List ℚ → List (ℚ × ℚ)
  | a :: b :: _ => [(a, b)]
  | _ => []

mutual

/-- Specification-side Geometry Extractor, following the words of spec §4.2:
`Point` yields its own pair; `LineString`/`MultiPoint` their coordinate list;
`Polygon`/`MultiLineString` the concatenation of all rings/lines;
`MultiPolygon` the concatenation over polygons over rings;
`GeometryCollection` recursively yields the pairs of each member geometry;
malformed entries (too-short pairs) are skipped silently. -/
def specExtractPairs : Geometry → List (ℚ × ℚ)
  | .point c => pairOf c
  | .lineString cs => cs.flatMap pairOf
  | .multiPoint cs => cs.flatMap pairOf
  | .polygon rs => rs.flatten.flatMap pairOf
  | .multiLineString rs => rs.flatten.flatMap pairOf
  | .multiPolygon ps => ((ps.map List.flatten).flatten).flatMap pairOf
  | .geometryCollection gs => specExtractPairsList gs
  | .unknown _ => []

/-- The spec-side extractor over the members of a `GeometryCollection`. -/
def specExtractPairsList : List Geometry → List (ℚ × ℚ)
  | [] => []
  | g :: gs => specExtractPairs g ++ specExtractPairsList gs

end

/-- Embeds `_extract_coords` from `backend/api/datasets.py` (lines 225-250), used at
dataset ingestion by `validate_geojson`.  The source threads two parallel
accumulator lists `lngs`/`lats`, always appending `c[0]` and `c[1]` together
under a `len(c) >= 2` guard; this is modelled as the list of appended pairs.
Note the source has no branch for `GeometryCollection` or unknown types: they
fall through every `elif` and contribute nothing. -/
def _extract_coords : Geometry → List (ℚ × ℚ)
  | .point c => pairOf c
  | .lineString cs => cs.flatMap pairOf
  | .multiPoint cs => cs.flatMap pairOf
  | .polygon rs => rs.flatten.flatMap pairOf
  | .multiLineString rs => rs.flatten.flatMap pairOf
  | .multiPolygon ps => ((ps.map List.flatten).flatten).flatMap pairOf
  | .geometryCollection _ => []
  | .unknown _ => []

/-- Python `min(list)` over a nonempty Python list (0 on the empty list, which the
source never reaches). -/
def listMin : List ℚ → ℚ
  | [] => 0
  | x :: xs => xs.foldl min x

/-- Python `max(list)` over a nonempty Python list (0 on the empty list, which the
source never reaches). -/
def listMax : List ℚ → ℚ
  | [] => 0
  | x :: xs => xs.foldl max x

/-- The raw coordinate entries one feature contributes to `extract_bounds`:
`_extract(feature.get("geometry"))`, where `_extract` returns immediately on a
missing (falsy) geometry. -/
def featureRawCoords (f : Feature) : List (List ℚ) :=
  match f.geometry with
  | none => []
  | some g => extractRaw g

/-- Embeds `extract_bounds` from `backend/api/normalize.py` (lines 100-136): collect
the raw coordinate entries of every feature, return the whole-world default
box when nothing was collected, otherwise filter to entries of length ≥ 2,
return the default again when that filter leaves nothing, and otherwise the
`[[min lng, min lat], [max lng, max lat]]` box. -/
def extract_bounds (geojson : FeatureCollection) : List (List ℚ) :=
  let coords := geojson.features.flatMap featureRawCoords
  if coords.isEmpty then [[-180, -85], [180, 85]]
  else
    let lngs := coords.filterMap fun c =>
      match c with
      | a :: _ :: _ => some a
      | _ => none
    let lats := coords.filterMap fun c =>
      match c with
      | _ :: b :: _ => some b
      | _ => none
    if lngs.isEmpty || lats.isEmpty then [[-180, -85], [180, 85]]
    else [[listMin lngs, listMin lats], [listMax lngs, listMax lats]]

/-! ### GeoJSON object normalization (`normalize_geojson` in `maps.py`) -/

/-- A JSON object submitted as GeoJSON, classified by its `type` tag as the
source dispatch on `data.get("type")` does: a `FeatureCollection` dict, a
`Feature` dict, a geometry dict, or any other dict (whose `type` tag, if
present, is carried along). -/
inductive GeoJsonValue where
  | featureCollection (features : List Feature)
  | feature (f : Feature)
  | geometry (g : Geometry)
  | otherObject (gtype : Option String)

/-- Embeds `normalize_geojson` from `backend/api/maps.py` (lines 148-164): a
`FeatureCollection` passes through unchanged, a `Feature` is wrapped in a
singleton collection, a geometry whose type is one of the seven recognized
names is wrapped as a feature with empty properties, and anything else fails
with the invalid-GeoJSON error.  A geometry dict with an unrecognized type
fails the membership test of the source on the seven names. -/
def normalize_geojson : GeoJsonValue → Except HTTPErr FeatureCollection
  | .featureCollection fs => .ok ⟨fs⟩
  | .feature f => .ok ⟨[f]⟩
  | .geometry (.unknown _) => .error (.badRequest ("Invalid GeoJSON structure"))
  | .geometry g => .ok ⟨[⟨some g, []⟩]⟩
  | .otherObject _ => .error (.badRequest ("Invalid GeoJSON structure"))

/-! ### Coordinate-array inference (`parse_coordinates` in `maps.py`) -/

/-- A raw JSON value inside a submitted coordinate array. -/
inductive JVal where
  | num (q : ℚ)
  | str (s : String)
  | bool (b : Bool)
  | null
  | arr (elems : List JVal)

/-- Python `isinstance(x, (int, float))`.  The Python `bool` type is a subclass of `int`,
so booleans pass this check too. -/
def isNumericJ : JVal → Bool
  | .num _ => true
  | .bool _ => true
  | _ => false

mutual

/-- Structural equality of JSON values, modelling Python `==` on parsed JSON
(the numeric cross-type equalities `True == 1` etc. are not modelled). -/
def jvalEq : JVal → JVal → Bool
  | .num a, .num b => a == b
  | .str a, .str b => a == b
  | .bool a, .bool b => a == b
  | .null, .null => true
  | .arr a, .arr b => jvalEqList a b
  | _, _ => false

/-- Structural equality on lists of JSON values. -/
def jvalEqList : List JVal → List JVal → Bool
  | [], [] => true
  | a :: as_, b :: bs => jvalEq a b && jvalEqList as_ bs
  | _, _ => false

end

/-- The geometry dict built by `parse_coordinates`, keeping the raw submitted
coordinates exactly as the source stores them into the output dict. -/
inductive ParsedGeom where
  | point (coordinates : List JVal)
  | lineString (coordinates : List JVal)
  | polygon (ring : List JVal)

/-- Embeds `parse_coordinates` from `backend/api/maps.py` (lines 220-258): an empty
array fails; an array of length 2 whose FIRST element is numeric becomes a
`Point` (the second element is not checked); otherwise, when the FIRST element
is a two-element array whose first entry is numeric, the array becomes a
`Polygon` with one ring when it is a closed ring (`len > 2` and first equals
last) and a `LineString` otherwise (the remaining elements are not checked);
any other array fails. -/
def parse_coordinates (coords : List JVal) : Except HTTPErr ParsedGeom :=
  if coords.isEmpty then .error (.badRequest ("Empty coordinates array"))
  else if coords.length = 2 && isNumericJ (coords.headD .null) then
    .ok (.point coords)
  else
    match coords.headD .null with
    | .arr first =>
      if first.length = 2 && isNumericJ (first.headD .null) then
        if coords.length > 2 && jvalEq (coords.headD .null) (coords.getLastD .null) then
          .ok (.polygon coords)
        else
          .ok (.lineString coords)
      else .error (.badRequest ("Could not interpret coordinate array"))
    | _ => .error (.badRequest ("Could not interpret coordinate array"))

/-! ### Dataset ingestion validation (`validate_geojson` in `datasets.py`) -/

/-- The constant `MAX_FILE_SIZE_BYTES` from `backend/api/datasets.py` line 95. -/
def MAX_FILE_SIZE_BYTES : ℕ := 50 * 1024 * 1024

/-- The metadata dict returned by `validate_geojson`.  `geometry_types` is the
sorted, duplicate-free list that the source joins with commas. -/
structure DatasetMeta where
  feature_count : ℕ
  geometry_types : List String
  bbox_west : ℚ
  bbox_south : ℚ
  bbox_east : ℚ
  bbox_north : ℚ
  file_size_bytes : ℕ
  completeness : ℚ
deriving DecidableEq, Repr

/-- Python `props.get(k)`: first binding of `k` in the property dict, if any. -/
def propGet (props : List (String × PVal)) (k : String) : Option PVal :=
  (props.find? fun kv => kv.1 = k).map Prod.snd

/-- Python `props.get(k) is not None`: the key is present and bound to a non-null
value. -/
def propNonNull (props : List (String × PVal)) (k : String) : Bool :=
  match propGet props k with
  | some PVal.null => false
  | some _ => true
  | none => false

/-- The union of all property keys across all features (`total_props` in the
source), as a duplicate-free list. -/
def propUnion (features : List Feature) : List String :=
  (features.flatMap fun f => f.properties.map Prod.fst).dedup

/-- Python `round(x, 3)`.  Ties at exact half-thousandths depend on the binary
float representation in the source and are settled here by `round`. -/
def round3 (q : ℚ) : ℚ := (round (q * 1000) : ℤ) / 1000

/-- The geometries that `validate_geojson` inspects: a feature is skipped when
its geometry is missing or its `type` tag is falsy (`not geom.get("type")`). -/
def typedGeoms (features : List Feature) : List Geometry :=
  features.filterMap fun f =>
    match f.geometry with
    | some g => if g.typeName = "" then none else some g
    | none => none

/-- The `completeness` value as computed by `validate_geojson` (lines 197-211): when the
key union is nonempty, the count of features whose every union key is bound
non-null, divided by the feature count and rounded to 3 decimals; otherwise
`1.0`. -/
def computeCompleteness (features : List Feature) : ℚ :=
  let total_props := propUnion features
  if total_props.isEmpty then 1
  else
    let complete_count :=
      features.countP fun f => total_props.all fun k => propNonNull f.properties k
    round3 ((complete_count : ℚ) / (features.length : ℚ))

/-- Embeds `validate_geojson` from `backend/api/datasets.py` (lines 165-222).  The
serialized payload size `len(json.dumps(data))` is taken as the parameter
`data_size` (JSON serialization itself is not embedded).  Checks, in source
order: the value is a `FeatureCollection`; its features list is non-empty and
at most 100,000 long; the payload is at most 50 MB; at least one coordinate
pair was extracted.  Returns the computed metadata. -/
def validate_geojson (data : GeoJsonValue) (data_size : ℕ) : Except HTTPErr DatasetMeta :=
  match data with
  | .featureCollection features =>
    if features.isEmpty then
      .error (.badRequest ("FeatureCollection must have at least 1 feature"))
    else if features.length > 100000 then
      .error (.badRequest ("Maximum 100,000 features per dataset"))
    else if data_size > MAX_FILE_SIZE_BYTES then
      .error (.badRequest ("Dataset too large. Maximum is 50MB."))
    else
      let geoms := typedGeoms features
      let geom_types := (geoms.map Geometry.typeName).dedup.insertionSort (fun a b => a ≤ b)
      let pairs := geoms.flatMap _extract_coords
      let lngs := pairs.map Prod.fst
      let lats := pairs.map Prod.snd
      if lngs.isEmpty then
        .error (.badRequest ("No valid coordinates found in features"))
      else
        .ok { feature_count := features.length
              geometry_types := geom_types
              bbox_west := listMin lngs
              bbox_south := listMin lats
              bbox_east := listMax lngs
              bbox_north := listMax lats
              file_size_bytes := data_size
              completeness := computeCompleteness features }
  | _ => .error (.badRequest ("Data must be a GeoJSON FeatureCollection"))

/-! ### CSV property coercion (`_normalize_csv_text` / `_csv_geom_to_geojson`) -/

/-- A pandas cell value: a missing value (None/NA), the float NaN, the float
infinities, a finite number, a string, or a boolean. -/
inductive CellVal where
  | na
  | nan
  | inf
  | ninf
  | num (q : ℚ)
  | str (s : String)
  | bool (b : Bool)
deriving DecidableEq, Repr

/-- Python `pd.isna(val)`: true for missing values and NaN, false for everything else
(in particular false for the infinities). -/
def pd_isna : CellVal → Bool
  | .na => true
  | .nan => true
  | _ => false

/-- Python `isinstance(val, float) and val != val`: true only for NaN — an infinity
compares equal to itself. -/
def floatSelfNe : CellVal → Bool
  | .nan => true
  | _ => false

/-- Embeds a (non-missing) cell value into a property value. -/
def cellToPVal : CellVal → PVal
  | .na => PVal.null
  | .nan => PVal.nan
  | .inf => PVal.inf
  | .ninf => PVal.ninf
  | .num q => PVal.num q
  | .str s => PVal.str s
  | .bool b => PVal.boolean b

/-- The per-cell property coercion shared by `_normalize_csv_text` (lines
255-259) and `_csv_geom_to_geojson` (lines 308-312) of
`backend/api/normalize.py`:
`props[col] = None if pd.isna(val) else (val if not isinstance(val, float) or
not (val != val) else None)`. -/
def csv_prop_value (val : CellVal) : PVal :=
  if pd_isna val then PVal.null
  else if floatSelfNe val then PVal.null
  else cellToPVal val

/-- The property dict built for one CSV row by `_normalize_csv_text` (lines
249-259): every column except the resolved lat/lng columns becomes a property
through the per-cell coercion. -/
def csv_row_props (row : List (String × CellVal)) (resolved_lat resolved_lng : String) :
    List (String × PVal) :=
  row.filterMap fun kv =>
    if kv.1 = resolved_lat ∨ kv.1 = resolved_lng then none
    else some (kv.1, csv_prop_value kv.2)

/-- The property dict built for one row by `_csv_geom_to_geojson` (lines
304-312): every column except the geometry column becomes a property through
the same per-cell coercion. -/
def csv_geom_row_props (row : List (String × CellVal)) (geom_col : String) :
    List (String × PVal) :=
  row.filterMap fun kv =>
    if kv.1 = geom_col then none
    else some (kv.1, csv_prop_value kv.2)

/-! ### Geometry validation/repair (`_validate_and_repair_geometries`)

The Shapely collaborators are abstracted: `shape` constructs a geometric value
(`none` models a raised exception), `is_valid` is the validity test, and
`make_valid` composes `make_valid` with `mapping` back to GeoJSON (`none`
models a raised exception anywhere in that sequence).
-/

/-- The per-feature body of the loop in `_validate_and_repair_geometries`
(`backend/api/normalize.py` lines 360-371): a missing geometry is skipped;
a construction or repair exception keeps the feature unchanged; a valid
geometry is left alone; an invalid one is replaced by its repaired version. -/
def _validate_and_repair_feature {SG : Type} (shape : Geometry → Option SG)
    (is_valid : SG → Bool) (make_valid : SG → Option Geometry) (f : Feature) : Feature :=
  match f.geometry with
  | none => f
  | some geom =>
    match shape geom with
    | none => f
    | some shp =>
      if is_valid shp then f
      else
        match make_valid shp with
        | none => f
        | some repaired => { f with geometry := some repaired }

/-- Embeds `_validate_and_repair_geometries` from `backend/api/normalize.py` (lines
351-376): the per-feature repair applied to every feature of the collection,
in place. -/
def _validate_and_repair_geometries {SG : Type} (shape : Geometry → Option SG)
    (is_valid : SG → Bool) (make_valid : SG → Option Geometry)
    (geojson : FeatureCollection) : FeatureCollection :=
  ⟨geojson.features.map (_validate_and_repair_feature shape is_valid make_valid)⟩

/-! ### Dataset catalog and the bbox spatial queries -/

/-- One row of the `datasets` table, restricted to the columns the spatial
queries read. -/
structure DatasetRecord where
  id : String
  public : Bool
  category : Option String
  bbox_west : ℚ
  bbox_south : ℚ
  bbox_east : ℚ
  bbox_north : ℚ
  reputation_score : ℚ
  query_count : ℤ
deriving DecidableEq, Repr

/-- The bbox-overlap condition of `search_datasets`
(`backend/database.py` line 782):
`bbox_east >= west AND bbox_west <= east AND bbox_north >= south AND
bbox_south <= north` — closed comparisons on every axis. -/
def bboxOverlap (r : DatasetRecord) (west south east north : ℚ) : Bool :=
  r.bbox_east ≥ west && r.bbox_west ≤ east && r.bbox_north ≥ south && r.bbox_south ≤ north

/-- The category filter: no filter when the query names no category, equality
with the category of the record otherwise. -/
def categoryMatches (r : DatasetRecord) : Option String → Bool
  | none => true
  | some c => r.category = some c

/-- The row-selection predicate of `search_datasets` for a bbox query with no
keyword filter: the record is public, matches the requested category when one
is given, and its stored bbox overlaps the query box. -/
def recordMatches (r : DatasetRecord) (category : Option String) (w s e n : ℚ) : Bool :=
  r.public && categoryMatches r category && bboxOverlap r w s e n

/-- The SQL `ORDER BY reputation_score DESC, query_count DESC` as a total preorder on
records: `a` sorts no later than `b` when `a` has strictly higher reputation,
or equal reputation and at least as high a stored query count. -/
def rankLE (a b : DatasetRecord) : Prop :=
  b.reputation_score < a.reputation_score ∨
    (a.reputation_score = b.reputation_score ∧ b.query_count ≤ a.query_count)

instance : DecidableRel rankLE := fun a b => by
  unfold rankLE
  infer_instance

instance : IsTotal DatasetRecord rankLE where
  total a b := by
    rcases lt_trichotomy a.reputation_score b.reputation_score with h | h | h
    · exact Or.inr (Or.inl h)
    · rcases le_total a.query_count b.query_count with hq | hq
      · exact Or.inr (Or.inr ⟨h.symm, hq⟩)
      · exact Or.inl (Or.inr ⟨h, hq⟩)
    · exact Or.inl (Or.inl h)

instance : IsTrans DatasetRecord rankLE where
  trans a b c hab hbc := by
    rcases hab with hab | ⟨hab, habq⟩
    · rcases hbc with hbc | ⟨hbc, _⟩
      · exact Or.inl (hbc.trans hab)
      · exact Or.inl (hbc ▸ hab)
    · rcases hbc with hbc | ⟨hbc, hbcq⟩
      · exact Or.inl (hab ▸ hbc)
      · exact Or.inr ⟨hab.trans hbc, hbcq.trans habq⟩

/-- The bbox branch of `search_datasets` from `backend/database.py` (lines
757-813), as a pure read over the table: select the public rows matching the
category and bbox filters, order them by descending reputation score then
descending stored query count, and apply the limit (offset 0). -/
def search_datasets_bbox (catalog : List DatasetRecord) (category : Option String)
    (w s e n : ℚ) (limit : ℕ) : List DatasetRecord :=
  ((catalog.filter fun r => recordMatches r category w s e n).insertionSort rankLE).take limit

/-- Modelled from the spec: `spatial_query_intersects` is imported from the
database module by `backend/api/spatial.py` but is not present in the source
tree.  Per spec §4.5, Intersects matches records by the stored-bbox overlap
test with category filtering and orders results by descending reputation score
then descending stored query count — the same filter and `ORDER BY` as
the bbox branch of `search_datasets`, to which this definition delegates. -/
def spatial_query_intersects (catalog : List DatasetRecord) (w s e n : ℚ)
    (category : Option String) (limit : ℕ) : List DatasetRecord :=
  search_datasets_bbox catalog category w s e n limit

/-- Embeds `query_intersects` from `backend/api/spatial.py` (lines 95-153): reject
the query with a 400 error when `west > east` or `south > north`, otherwise
return the catalog rows selected by `spatial_query_intersects`. -/
def query_intersects (catalog : List DatasetRecord) (west south east north : ℚ)
    (category : Option String) (limit : ℕ) : Except HTTPErr (List DatasetRecord) :=
  if west > east then .error (.badRequest ("west must be <= east"))
  else if south > north then .error (.badRequest ("south must be <= north"))
  else .ok (spatial_query_intersects catalog west south east north category limit)

/-- Embeds `query_contains` from `backend/api/spatial.py` (lines 215-266): a point is
contained when the stored bbox intersects the degenerate zero-area box at the
point, so the handler calls `spatial_query_intersects` with
`west = east = lng` and `south = north = lat`. -/
def query_contains (catalog : List DatasetRecord) (lat lng : ℚ)
    (category : Option String) (limit : ℕ) : List DatasetRecord :=
  spatial_query_intersects catalog lng lat lng lat category limit

/-! ### The legacy per-feature bbox filter on dataset download -/

/-- Embeds `_flat_coords` from `backend/api/datasets.py` (lines 984-1001): the flat
list of `c[:2]` prefixes over the four point-like and ring-like layouts; a
`GeometryCollection` or unknown type matches no branch and yields nothing.
Unlike the ingestion extractor there is no length guard, so prefixes shorter
than 2 can appear in the result. -/
def _flat_coords : Geometry → List (List ℚ)
  | .point c => [c.take 2]
  | .lineString cs => cs.map fun c => c.take 2
  | .multiPoint cs => cs.map fun c => c.take 2
  | .polygon rs => rs.flatten.map fun c => c.take 2
  | .multiLineString rs => rs.flatten.map fun c => c.take 2
  | .multiPolygon ps => ((ps.map List.flatten).flatten).map fun c => c.take 2
  | .geometryCollection _ => []
  | .unknown _ => []

/-- One entry of the loop of `_feature_in_bbox`: `lng, lat = c` followed by
the closed in-box test.  Unpacking a list that is not an exact pair raises
`ValueError` in the source, modelled as the `Except` error. -/
def coordInBBoxStep (w s e n : ℚ) (c : List ℚ) : Except Unit Bool :=
  match c with
  | [lng, lat] => .ok (w ≤ lng && lng ≤ e && s ≤ lat && lat ≤ n)
  | _ => .error ()

/-- The scan of `_feature_in_bbox` over the flat coordinates: return `true` at
the first pair inside the box, `false` when the list is exhausted, and
propagate the unpacking error. -/
def featureInBBoxGo (w s e n : ℚ) : List (List ℚ) → Except Unit Bool
  | [] => .ok false
  | c :: rest => do
    let hit ← coordInBBoxStep w s e n c
    if hit then .ok true else featureInBBoxGo w s e n rest

/-- Embeds `_feature_in_bbox` from `backend/api/datasets.py` (lines 975-981): true
when at least one extracted coordinate prefix lies inside the closed query
box. -/
def _feature_in_bbox (geom : Geometry) (w s e n : ℚ) : Except Unit Bool :=
  featureInBBoxGo w s e n (_flat_coords geom)

/-- Python `f.get("geometry", dict())`: an empty dict has a falsy missing `type`,
modelled as the unknown geometry with the empty type string. -/
def featureGeomOrEmpty (f : Feature) : Geometry :=
  f.geometry.getD (.unknown (""))

/-- The bbox filtering loop of `get_dataset_geojson_compat`
(`backend/api/datasets.py` lines 820-825): keep exactly the features passing
`_feature_in_bbox`, propagating any `ValueError` raised mid-loop. -/
def filterFeaturesByBBox (w s e n : ℚ) : List Feature → Except Unit (List Feature)
  | [] => .ok []
  | f :: rest => do
    let keep ← _feature_in_bbox (featureGeomOrEmpty f) w s e n
    let tail ← filterFeaturesByBBox w s e n rest
    .ok (if keep then f :: tail else tail)

/-- The pure in-box test on a proper coordinate pair, used to state what the
filter computes on well-formed data. -/
def coordInBBox (w s e n : ℚ) (c : List ℚ) : Bool :=
  match c with
  | lng :: lat :: _ => w ≤ lng && lng ≤ e && s ≤ lat && lat ≤ n
  | _ => false

/-! ### Spec-side definitions for the refinement claims -/

/-- The pairs one feature contributes to the spec-side Geometry Extractor. -/
def specFeaturePairs (f : Feature) : List (ℚ × ℚ) :=
  match f.geometry with
  | none => []
  | some g => specExtractPairs g

/-- All coordinate pairs reachable from a collection via the spec-side
Geometry Extractor. -/
def specCollectionPairs (fc : FeatureCollection) : List (ℚ × ℚ) :=
  fc.features.flatMap specFeaturePairs

/-- Spec-side key union: the union of all property keys across all features,
as a finite set. -/
def specPropKeys (features : List Feature) : Finset String :=
  (features.flatMap fun f => f.properties.map Prod.fst).toFinset

/-- Spec-side completeness (spec §4.4): `1.0` when the key union is empty,
otherwise the number of features in which every union key is bound to a
non-null value, divided by the feature count, rounded to 3 decimals. -/
def specCompleteness (features : List Feature) : ℚ :=
  let U := specPropKeys features
  if U = ∅ then 1
  else
    round3
      (((features.filter fun f => ∀ k ∈ U, propNonNull f.properties k = true).length : ℚ) /
        (features.length : ℚ))

/-! ### Shared lemmas -/

mutual

/-- The raw entries collected by `extract_bounds`, once filtered down to
proper pairs, are exactly the pairs of the spec-side Geometry Extractor. -/
theorem extractRaw_flatMap_pairOf (g : Geometry) :
    (extractRaw g).flatMap pairOf = specExtractPairs g := by
  cases g with
  | point c => simp [extractRaw, specExtractPairs]
  | lineString cs => rfl
  | multiPoint cs => rfl
  | polygon rs => rfl
  | multiLineString rs => rfl
  | multiPolygon ps => rfl
  | geometryCollection gs =>
    simpa [extractRaw, specExtractPairs] using extractRawList_flatMap_pairOf gs
  | unknown t => rfl

/-- The list version of `extractRaw_flatMap_pairOf`. -/
theorem extractRawList_flatMap_pairOf (gs : List Geometry) :
    (extractRawList gs).flatMap pairOf = specExtractPairsList gs := by
  cases gs with
  | nil => rfl
  | cons g rest =>
    simp only [extractRawList, specExtractPairsList, List.flatMap_append,
      extractRaw_flatMap_pairOf g, extractRawList_flatMap_pairOf rest]

end

theorem filterMap_fst_eq_pairs (coords : List (List ℚ)) :
    (coords.filterMap fun c =>
        match c with
        | a :: _ :: _ => some a
        | _ => none) =
      (coords.flatMap pairOf).map Prod.fst := by
  induction coords with
  | nil => rfl
  | cons c rest ih =>
    match c with
    | [] => simpa [pairOf] using ih
    | [a] => simpa [pairOf] using ih
    | a :: b :: t => simp [pairOf, ih]

theorem filterMap_snd_eq_pairs (coords : List (List ℚ)) :
    (coords.filterMap fun c =>
        match c with
        | _ :: b :: _ => some b
        | _ => none) =
      (coords.flatMap pairOf).map Prod.snd := by
  induction coords with
  | nil => rfl
  | cons c rest ih =>
    match c with
    | [] => simpa [pairOf] using ih
    | [a] => simpa [pairOf] using ih
    | a :: b :: t => simp [pairOf, ih]

/-! ### C1 -/

/-- C1 amended: an empty FeatureCollection fails dataset ingestion with the
empty-input 400 error, but the normalize operation does not reject it:
`normalize_geojson` passes the empty collection through unchanged, producing a
successful result with zero features. -/
theorem empty_collection_error_boundary :
    (∀ data_size : ℕ,
      validate_geojson (.featureCollection []) data_size =
        .error (.badRequest ("FeatureCollection must have at least 1 feature"))) ∧
    normalize_geojson (.featureCollection []) = .ok ⟨[]⟩ :=
  ⟨fun _ => rfl, rfl⟩

/-- C1 counterexample: normalizing the FeatureCollection whose features list
is empty succeeds and returns the empty collection, instead of failing with a
validation error as the claim states. -/
theorem normalize_geojson_empty_success :
    normalize_geojson (.featureCollection []) = .ok ⟨[]⟩ ∧
    (FeatureCollection.mk []).features.length = 0 :=
  ⟨rfl, rfl⟩

/-! ### C4 -/

/-- C4 amended: the coordinate extraction used by `extract_bounds` follows the
recursion rule of spec §4.2 (with malformed, too-short entries skipped
silently) for every geometry, including `GeometryCollection`; the ingestion
extractor `_extract_coords` follows the rule on the six concrete geometry
types and on unknown types, but yields nothing for a `GeometryCollection`
instead of recursing into its members. -/
theorem extractors_recursion_rule :
    (∀ g : Geometry, (extractRaw g).flatMap pairOf = specExtractPairs g) ∧
    (∀ c, _extract_coords (Geometry.point c) = specExtractPairs (Geometry.point c)) ∧
    (∀ cs, _extract_coords (Geometry.lineString cs) = specExtractPairs (Geometry.lineString cs)) ∧
    (∀ cs, _extract_coords (Geometry.multiPoint cs) = specExtractPairs (Geometry.multiPoint cs)) ∧
    (∀ rs, _extract_coords (Geometry.polygon rs) = specExtractPairs (Geometry.polygon rs)) ∧
    (∀ rs, _extract_coords (Geometry.multiLineString rs) =
      specExtractPairs (Geometry.multiLineString rs)) ∧
    (∀ ps, _extract_coords (Geometry.multiPolygon ps) =
      specExtractPairs (Geometry.multiPolygon ps)) ∧
    (∀ t, _extract_coords (Geometry.unknown t) = []) ∧
    (∀ gs, _extract_coords (Geometry.geometryCollection gs) = []) :=
  ⟨extractRaw_flatMap_pairOf, fun _ => rfl, fun _ => rfl, fun _ => rfl, fun _ => rfl,
    fun _ => rfl, fun _ => rfl, fun _ => rfl, fun _ => rfl⟩

/-- C4 counterexample: on the `GeometryCollection` containing the single point
`[1, 2]`, the ingestion extractor `_extract_coords` yields nothing, while the
recursion rule (and the extractor used by `extract_bounds`) yields the pair
`(1, 2)` — so the claimed rule does not hold for every extractor. -/
theorem ingestion_extractor_drops_geometrycollection :
    _extract_coords (Geometry.geometryCollection [Geometry.point [1, 2]]) = [] ∧
    specExtractPairs (Geometry.geometryCollection [Geometry.point [1, 2]]) = [(1, 2)] ∧
    (extractRaw (Geometry.geometryCollection [Geometry.point [1, 2]])).flatMap pairOf
      = [(1, 2)] :=
  ⟨rfl, rfl, rfl⟩

/-! ### C7 -/

/-- C7: geometry validation/repair is total and cardinality-preserving — the
output has exactly as many features as the input, feature properties are
untouched, and whenever the per-feature construction or repair fails (the
geometry is missing, `shape` raises, the geometry is already valid, or
`make_valid`/`mapping` raises) the feature is kept fully unchanged. -/
theorem validate_and_repair_spec {SG : Type} (shape : Geometry → Option SG)
    (is_valid : SG → Bool) (make_valid : SG → Option Geometry) (fc : FeatureCollection) :
    ((_validate_and_repair_geometries shape is_valid make_valid fc).features.length =
      fc.features.length) ∧
    ((_validate_and_repair_geometries shape is_valid make_valid fc).features =
      fc.features.map (_validate_and_repair_feature shape is_valid make_valid)) ∧
    (∀ f : Feature, f.geometry = none →
      _validate_and_repair_feature shape is_valid make_valid f = f) ∧
    (∀ f g, f.geometry = some g → shape g = none →
      _validate_and_repair_feature shape is_valid make_valid f = f) ∧
    (∀ f g sg, f.geometry = some g → shape g = some sg → is_valid sg = true →
      _validate_and_repair_feature shape is_valid make_valid f = f) ∧
    (∀ f g sg, f.geometry = some g → shape g = some sg → is_valid sg = false →
      make_valid sg = none →
      _validate_and_repair_feature shape is_valid make_valid f = f) ∧
    (∀ f : Feature,
      (_validate_and_repair_feature shape is_valid make_valid f).properties = f.properties) := by
  refine ⟨?_, rfl, ?_, ?_, ?_, ?_, ?_⟩
  · exact List.length_map _ _
  · intro f hf
    simp [_validate_and_repair_feature, hf]
  · intro f g hf hs
    simp [_validate_and_repair_feature, hf, hs]
  · intro f g sg hf hs hv
    simp [_validate_and_repair_feature, hf, hs, hv]
  · intro f g sg hf hs hv hm
    simp [_validate_and_repair_feature, hf, hs, hv, hm]
  · intro f
    unfold _validate_and_repair_feature
    split
    · rfl
    · split
      · rfl
      · split
        · rfl
        · split
          · rfl
          · rfl

/-- A sample feature used to witness the repair theorem. -/
def sampleFeature : Feature := ⟨some (.point [1, 2]), []⟩

/-- Witness for C7: at a concrete collection and a `shape` collaborator that
always fails, the repair step preserves the single feature unchanged. -/
theorem validate_and_repair_spec_witness :
    (_validate_and_repair_geometries (fun _ : Geometry => (none : Option Unit))
      (fun _ => true) (fun _ => none) ⟨[sampleFeature]⟩).features.length = 1 ∧
    _validate_and_repair_feature (fun _ : Geometry => (none : Option Unit))
      (fun _ => true) (fun _ => none) sampleFeature = sampleFeature := by
  have h := validate_and_repair_spec (fun _ : Geometry => (none : Option Unit))
    (fun _ => true) (fun _ => none) ⟨[sampleFeature]⟩
  exact ⟨h.1, h.2.2.2.1 sampleFeature (Geometry.point [1, 2]) rfl rfl⟩

/-! ### C8 -/

/-- C8: for every point and every catalog state, the Contains query returns
exactly the result of the Intersects query with the degenerate zero-area box
`west = east = lng`, `south = north = lat` (which that query accepts, since
the degenerate box trivially satisfies its precondition). -/
theorem contains_refines_intersects (catalog : List DatasetRecord) (lat lng : ℚ)
    (category : Option String) (limit : ℕ) :
    query_intersects catalog lng lat lng lat category limit =
      .ok (query_contains catalog lat lng category limit) := by
  simp [query_intersects, query_contains, lt_irrefl]

/-! ### C9 -/

/-- C9 amended: in CSV normalization every non-geometry column value becomes a
per-feature property through the shared per-cell coercion, which maps missing
values and NaN to null; the infinities are NOT coerced — `+Inf`/`-Inf` pass
into the feature properties unchanged. -/
theorem csv_props_spec :
    (∀ (row : List (String × CellVal)) (latc lngc col : String) (v : CellVal),
      (col, v) ∈ row → ¬(col = latc ∨ col = lngc) →
      (col, csv_prop_value v) ∈ csv_row_props row latc lngc) ∧
    (∀ (row : List (String × CellVal)) (gcol col : String) (v : CellVal),
      (col, v) ∈ row → col ≠ gcol →
      (col, csv_prop_value v) ∈ csv_geom_row_props row gcol) ∧
    csv_prop_value CellVal.nan = PVal.null ∧
    csv_prop_value CellVal.na = PVal.null ∧
    csv_prop_value CellVal.inf = PVal.inf ∧
    csv_prop_value CellVal.ninf = PVal.ninf ∧
    (∀ q, csv_prop_value (CellVal.num q) = PVal.num q) ∧
    (∀ s, csv_prop_value (CellVal.str s) = PVal.str s) := by
  refine ⟨?_, ?_, rfl, rfl, rfl, rfl, fun _ => rfl, fun _ => rfl⟩
  · intro row latc lngc col v hmem hcol
    have : (fun kv : String × CellVal =>
        if kv.1 = latc ∨ kv.1 = lngc then none
        else some (kv.1, csv_prop_value kv.2)) (col, v) = some (col, csv_prop_value v) := by
      simp [hcol]
    exact List.mem_filterMap.mpr ⟨(col, v), hmem, this⟩
  · intro row gcol col v hmem hcol
    have : (fun kv : String × CellVal =>
        if kv.1 = gcol then none
        else some (kv.1, csv_prop_value kv.2)) (col, v) = some (col, csv_prop_value v) := by
      simp [hcol]
    exact List.mem_filterMap.mpr ⟨(col, v), hmem, this⟩

/-- Witness for C9: on a concrete row, the non-coordinate column survives into
the properties with its (un-coerced) infinite value. -/
theorem csv_props_spec_witness :
    ("v", csv_prop_value CellVal.inf) ∈
      csv_row_props [("lat", CellVal.num 1), ("lng", CellVal.num 2), ("v", CellVal.inf)]
        ("lat") ("lng") :=
  csv_props_spec.1 [("lat", CellVal.num 1), ("lng", CellVal.num 2), ("v", CellVal.inf)]
    ("lat") ("lng") ("v") CellVal.inf (by simp) (by simp)

/-- C9 counterexample: a `+Inf` cell in a non-geometry CSV column is not
coerced to null — it is stored in the feature properties as the infinity
itself, contradicting the claim that every non-finite numeric value becomes
null. -/
theorem csv_inf_not_coerced :
    csv_row_props [("lat", CellVal.num 1), ("lng", CellVal.num 2), ("v", CellVal.inf)]
      ("lat") ("lng") = [("v", PVal.inf)] ∧
    PVal.inf ≠ PVal.null :=
  ⟨rfl, by decide⟩

/-! ### C3 -/

theorem featureRawCoords_flatMap_pairOf (f : Feature) :
    (featureRawCoords f).flatMap pairOf = specFeaturePairs f := by
  rcases f with ⟨geo, props⟩
  cases geo with
  | none => rfl
  | some g => exact extractRaw_flatMap_pairOf g

theorem collection_flatMap_pairOf (fc : FeatureCollection) :
    (fc.features.flatMap featureRawCoords).flatMap pairOf = specCollectionPairs fc := by
  rw [List.flatMap_assoc]
  unfold specCollectionPairs
  simp only [featureRawCoords_flatMap_pairOf]

/-- C3: `extract_bounds` returns `[[minLng, minLat], [maxLng, maxLat]]` taken
over every coordinate pair reachable via the recursive traversal of the Geometry Extractor over
the geometries of the collection, and the default whole-world box
`[[-180, -85], [180, 85]]` when the collection has no features or no
reachable coordinate pair. -/
theorem extract_bounds_correct (fc : FeatureCollection) :
    extract_bounds fc =
      if (specCollectionPairs fc).isEmpty then [[-180, -85], [180, 85]]
      else
        [[listMin ((specCollectionPairs fc).map Prod.fst),
          listMin ((specCollectionPairs fc).map Prod.snd)],
         [listMax ((specCollectionPairs fc).map Prod.fst),
          listMax ((specCollectionPairs fc).map Prod.snd)]] := by
  have hlng : ((fc.features.flatMap featureRawCoords).filterMap fun c =>
      match c with
      | a :: _ :: _ => some a
      | _ => none) = (specCollectionPairs fc).map Prod.fst := by
    rw [filterMap_fst_eq_pairs, collection_flatMap_pairOf]
  have hlat : ((fc.features.flatMap featureRawCoords).filterMap fun c =>
      match c with
      | _ :: b :: _ => some b
      | _ => none) = (specCollectionPairs fc).map Prod.snd := by
    rw [filterMap_snd_eq_pairs, collection_flatMap_pairOf]
  by_cases hc : (fc.features.flatMap featureRawCoords).isEmpty
  · have hpairs : specCollectionPairs fc = [] := by
      rw [← collection_flatMap_pairOf fc]
      rw [List.isEmpty_iff] at hc
      rw [hc]
      rfl
    simp [extract_bounds, hc, hpairs]
  · unfold extract_bounds
    simp only [hc, Bool.false_eq_true, if_false, hlng, hlat]
    by_cases hp : (specCollectionPairs fc).isEmpty
    · rw [List.isEmpty_iff] at hp
      simp [hp]
    · rw [List.isEmpty_iff] at hp
      simp [hp, List.map_eq_nil_iff]

/-! ### C10 -/

theorem exceptOkBind {ε α β : Type} (a : α) (k : α → Except ε β) :
    ((Except.ok a : Except ε α) >>= k) = k a := rfl

theorem featureInBBoxGo_wf (w s e n : ℚ) (cs : List (List ℚ))
    (h : ∀ c ∈ cs, c.length = 2) :
    featureInBBoxGo w s e n cs = .ok (cs.any (coordInBBox w s e n)) := by
  induction cs with
  | nil => rfl
  | cons c rest ih =>
    have hc : c.length = 2 := h c (by simp)
    obtain ⟨lng, lat, hcl⟩ : ∃ lng lat, c = [lng, lat] := by
      match c, hc with
      | [a, b], _ => exact ⟨a, b, rfl⟩
    subst hcl
    have hrest := ih fun x hx => h x (by simp [hx])
    by_cases ht : (w ≤ lng && lng ≤ e && s ≤ lat && lat ≤ n) = true
    · simp [featureInBBoxGo, coordInBBoxStep, coordInBBox, ht, exceptOkBind]
    · simp [featureInBBoxGo, coordInBBoxStep, coordInBBox, ht, hrest, exceptOkBind]

/-- C10: on features whose extracted coordinate entries are all proper pairs,
the legacy download bbox filter keeps a feature exactly when at least one
extracted coordinate pair lies inside the closed query box; the flat
extractor yields nothing for `GeometryCollection` or unknown geometry types
(so such features never pass the filter); and a polygon geometrically
overlapping the box but with no vertex inside it fails the test. -/
theorem legacy_bbox_filter_spec (features : List Feature) (w s e n : ℚ)
    (hwf : ∀ f ∈ features, ∀ c ∈ _flat_coords (featureGeomOrEmpty f), c.length = 2) :
    filterFeaturesByBBox w s e n features =
      .ok (features.filter fun f =>
        (_flat_coords (featureGeomOrEmpty f)).any (coordInBBox w s e n)) ∧
    (∀ gs, _flat_coords (.geometryCollection gs) = []) ∧
    (∀ t, _flat_coords (.unknown t) = []) ∧
    _feature_in_bbox (.polygon [[[0, 0], [10, 0], [0, 10], [0, 0]]]) 4 4 5 5 = .ok false := by
  refine ⟨?_, fun _ => rfl, fun _ => rfl, rfl⟩
  induction features with
  | nil => rfl
  | cons f rest ih =>
    have hf := featureInBBoxGo_wf w s e n _ (hwf f (by simp))
    have hrest := ih fun x hx c hc => hwf x (by simp [hx]) c hc
    simp only [filterFeaturesByBBox, _feature_in_bbox, hf, hrest, List.filter_cons, exceptOkBind]

/-- Witness for C10: at a concrete singleton collection with a point inside
the box, the filter keeps the feature. -/
theorem legacy_bbox_filter_spec_witness :
    filterFeaturesByBBox 0 0 2 2 [⟨some (.point [1, 1]), []⟩] =
      .ok ([⟨some (.point [1, 1]), []⟩].filter fun f =>
        (_flat_coords (featureGeomOrEmpty f)).any (coordInBBox 0 0 2 2)) :=
  (legacy_bbox_filter_spec [⟨some (.point [1, 1]), []⟩] 0 0 2 2 (by decide)).1

/-! ### C5 -/

/-- The first-element test of the array-of-points branch of
`parse_coordinates`: the first element (default null on the empty list) is a
two-element array whose own first entry is numeric. -/
def firstIsCoordPair (coords : List JVal) : Bool :=
  match coords.headD .null with
  | .arr first => first.length = 2 && isNumericJ (first.headD .null)
  | _ => false

/-- C5 amended: normalizing an array yields a single Point exactly when the
array has exactly two elements and its FIRST element is numeric (the second
element is not inspected); otherwise, when the FIRST element is a two-element
array whose first entry is numeric, a closed ring (first equals last, length
> 2) yields a Polygon with one ring and any other such array a LineString
(the remaining elements are not inspected); the parse fails exactly on the
empty array and on arrays whose first element passes neither test. -/
theorem parse_coordinates_cases (coords : List JVal) :
    ((∃ cs, parse_coordinates coords = .ok (.point cs)) ↔
      (coords.length = 2 ∧ isNumericJ (coords.headD .null) = true)) ∧
    ((∃ cs, parse_coordinates coords = .ok (.polygon cs)) ↔
      (¬(coords.length = 2 ∧ isNumericJ (coords.headD .null) = true) ∧
        firstIsCoordPair coords = true ∧ coords.length > 2 ∧
        jvalEq (coords.headD .null) (coords.getLastD .null) = true)) ∧
    ((∃ cs, parse_coordinates coords = .ok (.lineString cs)) ↔
      (¬(coords.length = 2 ∧ isNumericJ (coords.headD .null) = true) ∧
        firstIsCoordPair coords = true ∧
        ¬(coords.length > 2 ∧
          jvalEq (coords.headD .null) (coords.getLastD .null) = true))) ∧
    ((∃ d, parse_coordinates coords = .error d) ↔
      (coords = [] ∨
        (¬(coords.length = 2 ∧ isNumericJ (coords.headD .null) = true) ∧
          firstIsCoordPair coords = false))) := by
  rcases coords with _ | ⟨c0, rest⟩
  · refine ⟨?_, ?_, ?_, ?_⟩ <;> simp [parse_coordinates, firstIsCoordPair]
  · cases c0 <;>
      refine ⟨?_, ?_, ?_, ?_⟩ <;>
      simp [parse_coordinates, firstIsCoordPair, isNumericJ] <;>
      (try split_ifs <;> simp_all)

/-- C5 counterexample: the two-element array `[1, "x"]` has a non-numeric
second element, yet `parse_coordinates` returns a Point feature instead of
failing — the numeric check inspects only the first element. -/
theorem parse_coordinates_point_nonnumeric :
    parse_coordinates [JVal.num 1, JVal.str "x"] =
      .ok (.point [JVal.num 1, JVal.str "x"]) ∧
    isNumericJ (JVal.str "x") = false :=
  ⟨rfl, rfl⟩

/-! ### C6 -/

theorem propUnion_mem (features : List Feature) (k : String) :
    k ∈ propUnion features ↔ k ∈ specPropKeys features := by
  simp [propUnion, specPropKeys, List.mem_dedup]

theorem computeCompleteness_eq_spec (features : List Feature) :
    computeCompleteness features = specCompleteness features := by
  simp only [computeCompleteness, specCompleteness]
  have hEmpty : (propUnion features).isEmpty = true ↔ specPropKeys features = ∅ := by
    simp [propUnion, specPropKeys, List.isEmpty_iff, List.toFinset_eq_empty_iff,
      List.dedup_eq_nil]
  by_cases h : (propUnion features).isEmpty
  · rw [if_pos h, if_pos (hEmpty.mp h)]
  · rw [if_neg h, if_neg fun he => h (hEmpty.mpr he)]
    congr 1
    congr 1
    rw [List.countP_eq_length_filter]
    congr 1
    congr 1
    apply List.filter_congr
    intro f _
    apply Bool.coe_iff_coe.mp
    simp only [List.all_eq_true, decide_eq_true_eq]
    constructor
    · intro hall k hk
      exact hall k ((propUnion_mem features k).mpr hk)
    · intro hall k hk
      exact hall k ((propUnion_mem features k).mp hk)

/-- C6: whenever dataset ingestion validation succeeds, the completeness it
computes equals the formula of the spec — 1.0 when the union U of all property
keys across all features is empty, and otherwise the number of features in
which every key of U is bound to a non-null value (a feature missing a key
counts as incomplete) divided by the feature count, rounded to 3 decimals. -/
theorem completeness_correct (features : List Feature) (data_size : ℕ) (meta : DatasetMeta)
    (h : validate_geojson (.featureCollection features) data_size = .ok meta) :
    meta.completeness = specCompleteness features := by
  simp only [validate_geojson] at h
  split_ifs at h
  all_goals
    first
      | exact Except.noConfusion h
      | (have hmeta := (Except.ok.injEq _ _).mp h
         rw [← hmeta]
         exact computeCompleteness_eq_spec features)

/-- A concrete two-feature collection with a partially populated property
key, used to witness the completeness theorem. -/
def demoFeatures : List Feature :=
  [⟨some (.point [1, 2]), [("a", PVal.num 1)]⟩, ⟨some (.point [3, 4]), []⟩]

/-- The metadata that ingestion validation computes for `demoFeatures`
(the completeness `round3 (1 / 2)` evaluates to `1 / 2`). -/
def demoMeta : DatasetMeta :=
  { feature_count := 2, geometry_types := ["Point"], bbox_west := 1, bbox_south := 2,
    bbox_east := 3, bbox_north := 4, file_size_bytes := 10, completeness := round3 (1 / 2) }

/-- Witness for C6: on the concrete collection, validation succeeds and the
computed completeness (1/2: one of two features fully populated) equals the
spec formula. -/
theorem completeness_correct_witness :
    demoMeta.completeness = specCompleteness demoFeatures :=
  completeness_correct demoFeatures 10 demoMeta rfl

/-! ### C2 -/

/-- C2: the Intersects query rejects any query box with `west > east` or
`south > north` with a 400-class error before touching the catalog; under the
precondition `west ≤ east ∧ south ≤ north` it succeeds with a list of records
that all come from the catalog, are public, match the requested category, and
satisfy the closed bbox-overlap comparisons `east ≥ west ∧ west ≤ east ∧
north ≥ south ∧ south ≤ north` against the stored bbox; the list is ordered
by descending reputation score then descending stored query count, and (up to
the row limit) is exactly the set of matching records. -/
theorem intersects_query_spec (catalog : List DatasetRecord) (w s e n : ℚ)
    (category : Option String) (limit : ℕ) :
    (w > e → query_intersects catalog w s e n category limit =
      .error (.badRequest ("west must be <= east"))) ∧
    (¬(w > e) → s > n → query_intersects catalog w s e n category limit =
      .error (.badRequest ("south must be <= north"))) ∧
    (w ≤ e → s ≤ n →
      ∃ l, query_intersects catalog w s e n category limit = .ok l ∧
        List.Sorted rankLE l ∧
        (∀ r ∈ l, r ∈ catalog ∧ r.public = true ∧ categoryMatches r category = true ∧
          r.bbox_east ≥ w ∧ r.bbox_west ≤ e ∧ r.bbox_north ≥ s ∧ r.bbox_south ≤ n) ∧
        ((catalog.filter fun r => recordMatches r category w s e n).length ≤ limit →
          l.Perm (catalog.filter fun r => recordMatches r category w s e n))) := by
  refine ⟨?_, ?_, ?_⟩
  · intro h
    simp [query_intersects, h]
  · intro h1 h2
    simp [query_intersects, h1, h2]
  · intro he hn
    refine ⟨search_datasets_bbox catalog category w s e n limit, ?_, ?_, ?_, ?_⟩
    · simp [query_intersects, not_lt.mpr he, not_lt.mpr hn, spatial_query_intersects]
    · exact List.Pairwise.sublist (List.take_sublist _ _)
        (List.sorted_insertionSort rankLE _)
    · intro r hr
      have hr2 : r ∈ (catalog.filter fun x =>
          recordMatches x category w s e n).insertionSort rankLE :=
        List.Sublist.mem hr (List.take_sublist _ _)
      have hr3 : r ∈ catalog.filter fun x => recordMatches x category w s e n :=
        (List.perm_insertionSort rankLE _).mem_iff.mp hr2
      have hsplit := List.mem_filter.mp hr3
      have hb := hsplit.2
      simp only [recordMatches, bboxOverlap, Bool.and_eq_true, decide_eq_true_eq] at hb
      refine ⟨hsplit.1, ?_, ?_, ?_, ?_, ?_, ?_⟩ <;> tauto
    · intro hlen
      unfold search_datasets_bbox
      rw [List.take_of_length_le]
      · exact List.perm_insertionSort rankLE _
      · rw [(List.perm_insertionSort rankLE _).length_eq]
        exact hlen

/-- A concrete public record used to witness the Intersects theorem. -/
def sampleRecord : DatasetRecord := ⟨"ds_1", true, none, 0, 0, 10, 10, 5, 3⟩

/-- Witness for C2: at the concrete one-record catalog and the valid box
`(0, 0, 1, 1)`, the Intersects query succeeds with the stated properties. -/
theorem intersects_query_spec_witness :
    ∃ l, query_intersects [sampleRecord] 0 0 1 1 none 50 = .ok l ∧
      List.Sorted rankLE l ∧
      (∀ r ∈ l, r ∈ [sampleRecord] ∧ r.public = true ∧ categoryMatches r none = true ∧
        r.bbox_east ≥ 0 ∧ r.bbox_west ≤ 1 ∧ r.bbox_north ≥ 0 ∧ r.bbox_south ≤ 1) ∧
      (([sampleRecord].filter fun r => recordMatches r none 0 0 1 1).length ≤ 50 →
        l.Perm ([sampleRecord].filter fun r => recordMatches r none 0 0 1 1)) :=
  (intersects_query_spec [sampleRecord] 0 0 1 1 none 50).2.2 (by norm_num) (by norm_num)

end Spatix
